import Mathlib

/-!
Verification of the narrow-phase collision core of CinderBox2D.

The development shallowly embeds `src/CinderBox2D/Collision/cb2CollidePolygon.cpp`
(the separation finder `b2FindMaxSeparation`, the incident-edge selector
`b2FindIncidentEdge`, and the manifold builder `b2CollidePolygons`) together with
the data model those functions use.  Machine floats are embedded as real numbers.
The vector/rotation/transform primitives live in `cb2Math.h`, which is not part of
the sampled sources; they are modelled from the spec's data-model section (a rigid
transform is a rotation followed by a translation, rotations are stored as a
sine/cosine pair).  The segment clipper `b2ClipSegmentToLine` and the
time-of-impact driver `cb2TimeOfImpact` are likewise not in the sampled sources
and are modelled from the spec (sections 4.3 and 4.5).
-/

noncomputable section

namespace CinderBox2D

/-- A 2D vector with real coordinates; embeds `ci::Vec2f` / `b2Vec2`. -/
structure Vec2 where
  x : ℝ
  y : ℝ

/-- The zero vector, used as the junk default for out-of-range array reads. -/
def vzero : Vec2 := ⟨0, 0⟩

instance : Inhabited Vec2 := ⟨vzero⟩

def Vec2.add (a b : Vec2) : Vec2 := ⟨a.x + b.x, a.y + b.y⟩

def Vec2.sub (a b : Vec2) : Vec2 := ⟨a.x - b.x, a.y - b.y⟩

def Vec2.neg (a : Vec2) : Vec2 := ⟨-a.x, -a.y⟩

/-- Scalar multiplication of a vector. -/
def Vec2.smul (s : ℝ) (a : Vec2) : Vec2 := ⟨s * a.x, s * a.y⟩

instance : Add Vec2 := ⟨Vec2.add⟩
instance : Sub Vec2 := ⟨Vec2.sub⟩
instance : Neg Vec2 := ⟨Vec2.neg⟩

/-- Modelled from the spec: `b2Dot` from `cb2Math.h` (not under src), the
standard planar inner product. -/
def b2Dot (a b : Vec2) : ℝ := a.x * b.x + a.y * b.y

/-- Modelled from the spec: `b2Cross(const b2Vec2 and a, float s)` from
`cb2Math.h` (not under src): `(s * a.y, -s * a.x)`, the perpendicular used to
turn an edge tangent into an outward normal. -/
def b2CrossVS (a : Vec2) (s : ℝ) : Vec2 := ⟨s * a.y, -s * a.x⟩

/-- Modelled from the spec: `ci::Vec2f::normalize` (external Cinder library):
division of both coordinates by the Euclidean length.  At the zero vector the
real-number embedding yields the zero vector (division by zero is junk there,
as it is in the float code). -/
def Vec2.normalize (a : Vec2) : Vec2 :=
  let len := Real.sqrt (a.x * a.x + a.y * a.y)
  ⟨a.x / len, a.y / len⟩

/-- Modelled from the spec: a rotation stored as a sine/cosine pair (`b2Rot`
from `cb2Math.h`, not under src). -/
structure b2Rot where
  s : ℝ
  c : ℝ

/-- Rotation applied to a vector: `b2Mul(const b2Rot and q, const b2Vec2 and v)`. -/
def b2MulRV (q : b2Rot) (v : Vec2) : Vec2 :=
  ⟨q.c * v.x - q.s * v.y, q.s * v.x + q.c * v.y⟩

/-- Inverse rotation applied to a vector: `b2MulT(const b2Rot and q, const b2Vec2 and v)`. -/
def b2MulTRV (q : b2Rot) (v : Vec2) : Vec2 :=
  ⟨q.c * v.x + q.s * v.y, -q.s * v.x + q.c * v.y⟩

/-- Inverse-compose two rotations: `b2MulT(const b2Rot and q, const b2Rot and r)`. -/
def b2MulTRR (q r : b2Rot) : b2Rot :=
  ⟨q.c * r.s - q.s * r.c, q.c * r.c + q.s * r.s⟩

/-- Modelled from the spec: a rigid placement (`b2Transform`): rotation applied,
then offset added. -/
structure b2Transform where
  p : Vec2
  q : b2Rot

/-- Transform a point to the parent frame: `b2Mul(const b2Transform and T, const b2Vec2 and v)`. -/
def b2MulTV (T : b2Transform) (v : Vec2) : Vec2 :=
  b2MulRV T.q v + T.p

/-- Map a parent-frame point into the transform's local frame:
`b2MulT(const b2Transform and T, const b2Vec2 and v)`. -/
def b2MulTTV (T : b2Transform) (v : Vec2) : Vec2 :=
  b2MulTRV T.q (v - T.p)

/-- Inverse-compose two transforms: `b2MulT(const b2Transform and A, const b2Transform and B)`,
mapping B's local frame into A's local frame. -/
def b2MulTTT (A B : b2Transform) : b2Transform :=
  ⟨b2MulTRV A.q (B.p - A.p), b2MulTRR A.q B.q⟩

/-- A convex polygon: ordered local-frame vertices, parallel outward face
normals, and a skin radius; embeds `b2PolygonShape` (fields `m_vertices`,
`m_normals`, `m_radius`, with `m_count` the length of the vertex array). -/
structure b2PolygonShape where
  m_vertices : List Vec2
  m_normals : List Vec2
  m_radius : ℝ

/-- The vertex count `m_count` of a polygon. -/
def b2PolygonShape.m_count (p : b2PolygonShape) : ℕ := p.m_vertices.length

/-- Contact feature type tags (`b2ContactFeature::Type`). -/
inductive b2FeatureType where
  | e_vertex
  | e_face
deriving DecidableEq

/-- Contact feature (`b2ContactFeature`): per-shape (index, type) tags used by
the solver to match manifold points across steps. -/
structure b2ContactFeature where
  indexA : ℕ
  indexB : ℕ
  typeA : b2FeatureType
  typeB : b2FeatureType
deriving DecidableEq

/-- A clip vertex (`b2ClipVertex`): a world-space point with its feature id. -/
structure b2ClipVertex where
  v : Vec2
  id : b2ContactFeature

instance : Inhabited b2ClipVertex :=
  ⟨⟨vzero, ⟨0, 0, .e_vertex, .e_vertex⟩⟩⟩

/-- Manifold type tag (`b2Manifold::Type`). -/
inductive b2ManifoldType where
  | e_circles
  | e_faceA
  | e_faceB
deriving DecidableEq

/-- A manifold point (`b2ManifoldPoint`, restricted to the fields the collision
code writes): a point in the incident shape's local frame plus its feature id. -/
structure b2ManifoldPoint where
  localPoint : Vec2
  id : b2ContactFeature

/-- A contact manifold (`b2Manifold`).  The C struct stores a fixed two-slot
point array plus a `pointCount`; the embedding keeps the live prefix of that
array as a list, with `pointCount` its length. -/
structure b2Manifold where
  points : List b2ManifoldPoint
  localNormal : Vec2
  localPoint : Vec2
  type : b2ManifoldType

/-- The number of live manifold points (`b2Manifold::pointCount`). -/
def b2Manifold.pointCount (m : b2Manifold) : ℕ := m.points.length

/-! ### The separation finder (`b2FindMaxSeparation`, cb2CollidePolygon.cpp:23-62) -/

/-- The inner loop of `b2FindMaxSeparation`: running minimum seeded with the
first candidate (the C loop seeds with the `b2_maxFloat` sentinel, which the
first finite candidate always replaces; the embedding folds from the first
element instead). -/
def minFold (l : List ℝ) (x : ℝ) : ℝ :=
  l.foldl (fun a b => if b < a then b else a) x

/-- The outer loop of `b2FindMaxSeparation`: running (best index, max value)
with a strict-improvement update, so the first index attaining the maximum is
kept.  The C loop seeds with `-b2_maxFloat`, which the first finite candidate
always replaces; the embedding seeds with candidate 0. -/
def argmaxFold (l : List (ℕ × ℝ)) (acc : ℕ × ℝ) : ℕ × ℝ :=
  l.foldl (fun a p => if p.2 > a.2 then p else a) acc

/-- The dual fold used by `b2FindIncidentEdge`: running (best index, min value)
with a strict-improvement update (first minimizer kept). -/
def argminFold (l : List (ℕ × ℝ)) (acc : ℕ × ℝ) : ℕ × ℝ :=
  l.foldl (fun a p => if p.2 < a.2 then p else a) acc

/-- Separation of face `i` of `poly1` against `poly2`, both expressed in
`poly2`'s frame via `xf = b2MulT(xf2, xf1)`: the minimum over `poly2`'s
vertices of the signed projection onto face `i`'s normal relative to face `i`'s
first vertex (the body of the outer loop of `b2FindMaxSeparation`). -/
def faceSeparation (poly1 poly2 : b2PolygonShape) (xf : b2Transform) (i : ℕ) : ℝ :=
  let n := b2MulRV xf.q (poly1.m_normals.getD i vzero)
  let v1 := b2MulTV xf (poly1.m_vertices.getD i vzero)
  let sijs := poly2.m_vertices.map (fun v2 => b2Dot n (v2 - v1))
  minFold sijs.tail (sijs.headD 0)

/-- The signed projection of vertex `j` of `poly2` onto face `i` of `poly1`,
both in `poly2`'s frame: the quantity `sij` of `b2FindMaxSeparation`. -/
def projSep (poly1 poly2 : b2PolygonShape) (xf : b2Transform) (i j : ℕ) : ℝ :=
  b2Dot (b2MulRV xf.q (poly1.m_normals.getD i vzero))
    (poly2.m_vertices.getD j vzero - b2MulTV xf (poly1.m_vertices.getD i vzero))

/-- `b2FindMaxSeparation` (cb2CollidePolygon.cpp:23-62): the best separating
face of `poly1` against `poly2`, returned as (edge index, separation). -/
def b2FindMaxSeparation (poly1 : b2PolygonShape) (xf1 : b2Transform)
    (poly2 : b2PolygonShape) (xf2 : b2Transform) : ℕ × ℝ :=
  let xf := b2MulTTT xf2 xf1
  let seps := (List.range poly1.m_count).map (faceSeparation poly1 poly2 xf)
  argmaxFold (List.enumFrom 1 seps.tail) (0, seps.headD 0)

/-! ### The incident-edge selector (`b2FindIncidentEdge`, cb2CollidePolygon.cpp:64-107) -/

/-- The index-selection loop of `b2FindIncidentEdge`: the first index on
`poly2` whose normal has minimum dot product with `normal1` (the reference
normal expressed in `poly2`'s frame).  The C loop seeds with the `b2_maxFloat`
sentinel; the embedding seeds with candidate 0. -/
def incidentIndex (normal1 : Vec2) (poly2 : b2PolygonShape) : ℕ :=
  let dots := (List.range poly2.m_count).map
    (fun i => b2Dot normal1 (poly2.m_normals.getD i vzero))
  (argminFold (List.enumFrom 1 dots.tail) (0, dots.headD 0)).1

/-- `b2FindIncidentEdge` (cb2CollidePolygon.cpp:64-107): the two clip vertices
of the incident edge on `poly2`, in world space, tagged with (reference edge,
face) for shape 1 and (incident vertex, vertex) for shape 2. -/
def b2FindIncidentEdge (poly1 : b2PolygonShape) (xf1 : b2Transform) (edge1 : ℕ)
    (poly2 : b2PolygonShape) (xf2 : b2Transform) : b2ClipVertex × b2ClipVertex :=
  let normal1 := b2MulTRV xf2.q (b2MulRV xf1.q (poly1.m_normals.getD edge1 vzero))
  let i1 := incidentIndex normal1 poly2
  let i2 := if i1 + 1 < poly2.m_count then i1 + 1 else 0
  (⟨b2MulTV xf2 (poly2.m_vertices.getD i1 vzero), ⟨edge1, i1, .e_face, .e_vertex⟩⟩,
   ⟨b2MulTV xf2 (poly2.m_vertices.getD i2 vzero), ⟨edge1, i2, .e_face, .e_vertex⟩⟩)

/-! ### The segment clipper -/

/-- Modelled from the spec: `b2ClipSegmentToLine` (section 4.3); its
implementation (cb2Collision.cpp) is not among the sampled sources.  Signed
distances of both input points against the half-plane are computed; points
with distance at most 0 pass through unchanged, and when exactly one point is
outside, the boundary point obtained by linear interpolation is appended,
tagged as a vertex of shape A synthesized by this clip (carrying
`vertexIndexA`) against a face of shape B. -/
def b2ClipSegmentToLine (vIn : b2ClipVertex × b2ClipVertex) (normal : Vec2)
    (offset : ℝ) (vertexIndexA : ℕ) : List b2ClipVertex :=
  let distance0 := b2Dot normal vIn.1.v - offset
  let distance1 := b2Dot normal vIn.2.v - offset
  let interp := distance0 / (distance0 - distance1)
  let boundary : b2ClipVertex :=
    ⟨vIn.1.v + Vec2.smul interp (vIn.2.v - vIn.1.v),
     ⟨vertexIndexA, vIn.1.id.indexB, .e_vertex, .e_face⟩⟩
  if distance0 ≤ 0 ∧ distance1 ≤ 0 then [vIn.1, vIn.2]
  else if distance0 ≤ 0 then [vIn.1, boundary]
  else if distance1 ≤ 0 then [vIn.2, boundary]
  else []

/-! ### The manifold builder (`b2CollidePolygons`, cb2CollidePolygon.cpp:115-240) -/

/-- Modelled from the spec: the engine constant `b2_linearSlop` (cb2Settings.h
is not among the sampled sources); the reference engine's published value. -/
def b2_linearSlop : ℝ := 0.005

/-- The tie-break tolerance `k_tol = 0.1f * b2_linearSlop` of `b2CollidePolygons`. -/
def k_tol : ℝ := 0.1 * b2_linearSlop

/-- The reference/incident selection made by `b2CollidePolygons`
(cb2CollidePolygon.cpp:133-159): reference polygon, incident polygon, their
transforms, the reference edge, the manifold type, and the flip flag. -/
structure CollideSetup where
  poly1 : b2PolygonShape
  poly2 : b2PolygonShape
  xf1 : b2Transform
  xf2 : b2Transform
  edge1 : ℕ
  mtype : b2ManifoldType
  flip : Bool

/-- The reference/incident choice of `b2CollidePolygons`: B becomes the
reference exactly when its best separation exceeds A's by more than `k_tol`. -/
def collideSetup (polyA : b2PolygonShape) (xfA : b2Transform)
    (polyB : b2PolygonShape) (xfB : b2Transform) : CollideSetup :=
  let sepA := (b2FindMaxSeparation polyA xfA polyB xfB).2
  let sepB := (b2FindMaxSeparation polyB xfB polyA xfA).2
  if sepB > sepA + k_tol then
    ⟨polyB, polyA, xfB, xfA, (b2FindMaxSeparation polyB xfB polyA xfA).1, .e_faceB, true⟩
  else
    ⟨polyA, polyB, xfA, xfB, (b2FindMaxSeparation polyA xfA polyB xfB).1, .e_faceA, false⟩

/-- The reference-face data computed by `b2CollidePolygons`
(cb2CollidePolygon.cpp:164-191): edge endpoints, normalized tangent, outward
normal, face front offset and the two side offsets extended by the total skin
radius. -/
structure RefFace where
  iv1 : ℕ
  iv2 : ℕ
  v11 : Vec2
  v12 : Vec2
  localNormal : Vec2
  planePoint : Vec2
  tangent : Vec2
  normal : Vec2
  frontOffset : ℝ
  sideOffset1 : ℝ
  sideOffset2 : ℝ

/-- Computes the reference-face data of `b2CollidePolygons` from the selection. -/
def refFace (s : CollideSetup) (totalRadius : ℝ) : RefFace :=
  let count1 := s.poly1.m_count
  let iv1 := s.edge1
  let iv2 := if s.edge1 + 1 < count1 then s.edge1 + 1 else 0
  let v11l := s.poly1.m_vertices.getD iv1 vzero
  let v12l := s.poly1.m_vertices.getD iv2 vzero
  let localTangent := Vec2.normalize (v12l - v11l)
  let localNormal := b2CrossVS localTangent 1
  let planePoint := Vec2.smul 0.5 (v11l + v12l)
  let tangent := b2MulRV s.xf1.q localTangent
  let normal := b2CrossVS tangent 1
  let v11 := b2MulTV s.xf1 v11l
  let v12 := b2MulTV s.xf1 v12l
  ⟨iv1, iv2, v11, v12, localNormal, planePoint, tangent, normal,
   b2Dot normal v11, -(b2Dot tangent v11) + totalRadius, b2Dot tangent v12 + totalRadius⟩

/-- The first clip of `b2CollidePolygons` (cb2CollidePolygon.cpp:199): the
incident edge clipped against the first side plane of the reference face. -/
def collideClip1 (polyA : b2PolygonShape) (xfA : b2Transform)
    (polyB : b2PolygonShape) (xfB : b2Transform) : List b2ClipVertex :=
  let s := collideSetup polyA xfA polyB xfB
  let f := refFace s (polyA.m_radius + polyB.m_radius)
  let incidentEdge := b2FindIncidentEdge s.poly1 s.xf1 s.edge1 s.poly2 s.xf2
  b2ClipSegmentToLine incidentEdge (Vec2.neg f.tangent) f.sideOffset1 f.iv1

/-- The second clip of `b2CollidePolygons` (cb2CollidePolygon.cpp:205): the
result of the first clip, clipped against the other side plane.  (The builder
only reaches this clip when the first one produced two points, which is when
the two `getD` reads below are in range.) -/
def collideClip2 (polyA : b2PolygonShape) (xfA : b2Transform)
    (polyB : b2PolygonShape) (xfB : b2Transform) : List b2ClipVertex :=
  let s := collideSetup polyA xfA polyB xfB
  let f := refFace s (polyA.m_radius + polyB.m_radius)
  let c1 := collideClip1 polyA xfA polyB xfB
  b2ClipSegmentToLine (c1.getD 0 default, c1.getD 1 default) f.tangent f.sideOffset2 f.iv2

/-- Swap the per-shape components of a contact feature (the flip branch of the
emission loop, cb2CollidePolygon.cpp:225-231). -/
def swapFeatures (cf : b2ContactFeature) : b2ContactFeature :=
  ⟨cf.indexB, cf.indexA, cf.typeB, cf.typeA⟩

/-- `b2CollidePolygons` (cb2CollidePolygon.cpp:115-240).  The C function
mutates a caller-provided manifold; the embedding takes the incoming manifold
`manifold0` and returns its final state.  Fields the C code does not assign on
a given path keep their incoming values, exactly as the in-out parameter does. -/
def b2CollidePolygons (manifold0 : b2Manifold) (polyA : b2PolygonShape) (xfA : b2Transform)
    (polyB : b2PolygonShape) (xfB : b2Transform) : b2Manifold :=
  let m := { manifold0 with points := ([] : List b2ManifoldPoint) }
  let totalRadius := polyA.m_radius + polyB.m_radius
  if (b2FindMaxSeparation polyA xfA polyB xfB).2 > totalRadius then m
  else if (b2FindMaxSeparation polyB xfB polyA xfA).2 > totalRadius then m
  else
    let s := collideSetup polyA xfA polyB xfB
    let m1 := { m with type := s.mtype }
    let f := refFace s totalRadius
    if (collideClip1 polyA xfA polyB xfB).length < 2 then m1
    else if (collideClip2 polyA xfA polyB xfB).length < 2 then m1
    else
      let m2 := { m1 with localNormal := f.localNormal, localPoint := f.planePoint }
      let pts := (collideClip2 polyA xfA polyB xfB).filterMap (fun cp =>
        if b2Dot f.normal cp.v - f.frontOffset ≤ totalRadius then
          some ⟨b2MulTTV s.xf2 cp.v, if s.flip then swapFeatures cp.id else cp.id⟩
        else none)
      { m2 with points := pts }

/-! ### The time-of-impact driver -/

/-- TOI result states (`cb2TOIOutput::State`, cb2TimeOfImpact.h:38-45). -/
inductive TOIState where
  | e_unknown
  | e_failed
  | e_overlapped
  | e_touching
  | e_separated
deriving DecidableEq

/-- TOI result (`cb2TOIOutput`, cb2TimeOfImpact.h:36-49): a state and a time
fraction in `[0, tMax]`. -/
structure cb2TOIOutput where
  state : TOIState
  t : ℝ

/-- Modelled from the spec: the conservative-advancement loop of
`cb2TimeOfImpact` (section 4.5); the implementation (cb2TimeOfImpact.cpp) is
not among the sampled sources.  `distance t` is the external closest-point
distance between the two swept proxies at time `t`, `bound t` the conservative
upper bound on the closing speed, `tolerance` the touching band, and the fuel
argument the iteration cap.  Within the band at `t = 0` reports `overlapped`;
within the band at `t > 0` reports `touching`; reaching `tMax` with the gap
open reports `separated`; an exhausted cap or a near-zero denominator reports
`failed`. -/
def toiLoop (distance bound : ℝ → ℝ) (tolerance tMax : ℝ) : ℕ → ℝ → cb2TOIOutput
  | 0, t => ⟨.e_failed, t⟩
  | n + 1, t =>
    let d := distance t
    if d ≤ tolerance then
      if t = 0 then ⟨.e_overlapped, t⟩ else ⟨.e_touching, t⟩
    else if tMax ≤ t then ⟨.e_separated, tMax⟩
    else
      let b := bound t
      if b ≤ 0 then ⟨.e_failed, t⟩
      else toiLoop distance bound tolerance tMax n (min (t + (d - tolerance) / b) tMax)

/-- Modelled from the spec: `cb2TimeOfImpact` (section 4.5, declared at
cb2TimeOfImpact.h:56): conservative advancement starting at `t = 0`. -/
def cb2TimeOfImpact (distance bound : ℝ → ℝ) (tolerance tMax : ℝ)
    (iterCap : ℕ) : cb2TOIOutput :=
  toiLoop distance bound tolerance tMax iterCap 0

/-! ### Concrete fixtures used by the witnesses -/

/-- The identity transform. -/
def xfId : b2Transform := ⟨vzero, ⟨0, 1⟩⟩

/-- A unit square centered at the origin (counter-clockwise, Box2D vertex and
normal ordering), skin radius 0. -/
def squareA : b2PolygonShape :=
  ⟨[⟨-(1/2), -(1/2)⟩, ⟨1/2, -(1/2)⟩, ⟨1/2, 1/2⟩, ⟨-(1/2), 1/2⟩],
   [⟨0, -1⟩, ⟨1, 0⟩, ⟨0, 1⟩, ⟨-1, 0⟩], 0⟩

/-- The transform placing a second copy of the unit square at (1, 0), so the
two squares share the edge x = 1/2. -/
def xfShift1 : b2Transform := ⟨⟨1, 0⟩, ⟨0, 1⟩⟩

/-- A vertical two-point segment polygon from (0,0) to (0,1), skin radius 0. -/
def segV : b2PolygonShape := ⟨[⟨0, 0⟩, ⟨0, 1⟩], [⟨1, 0⟩, ⟨-1, 0⟩], 0⟩

/-- A horizontal two-point segment polygon from (-1/2,0) to (1/2,0), skin radius 0. -/
def segH : b2PolygonShape := ⟨[⟨-(1/2), 0⟩, ⟨1/2, 0⟩], [⟨0, -1⟩, ⟨0, 1⟩], 0⟩

/-- A single-vertex polygon at (0,-5) with outward normal (-1,0), skin radius 0. -/
def pointLow : b2PolygonShape := ⟨[⟨0, -5⟩], [⟨-1, 0⟩], 0⟩

/-- A single-vertex polygon at (5,0) with outward normal (-1,0), skin radius 0. -/
def pointFar : b2PolygonShape := ⟨[⟨5, 0⟩], [⟨-1, 0⟩], 0⟩

/-- A single-vertex polygon at the origin with outward normal (1,0), skin radius 0. -/
def pointO : b2PolygonShape := ⟨[⟨0, 0⟩], [⟨1, 0⟩], 0⟩

/-- Translation by (0, 0.4993): places `segH` just below the tie-break
threshold relative to `segV`. -/
def xfh1 : b2Transform := ⟨⟨0, 4993/10000⟩, ⟨0, 1⟩⟩

/-- Translation by (0, 0.4996): a perturbation of `xfh1` by 0.0003 < `k_tol`. -/
def xfh2 : b2Transform := ⟨⟨0, 4996/10000⟩, ⟨0, 1⟩⟩

/-- Translation by (0, 0.3): places `segH` across `segV` with B clearly the
better reference (used by the flip witnesses). -/
def xfh3 : b2Transform := ⟨⟨0, 3/10⟩, ⟨0, 1⟩⟩

/-- An arbitrary incoming manifold (the caller-owned out-parameter before the call). -/
def mIn : b2Manifold := ⟨[], vzero, vzero, .e_circles⟩

/-- A clip vertex at the origin (inside the witness half-plane). -/
def cvA : b2ClipVertex := ⟨⟨0, 0⟩, ⟨3, 4, .e_face, .e_vertex⟩⟩

/-- A clip vertex at (0,2) (outside the witness half-plane). -/
def cvB : b2ClipVertex := ⟨⟨0, 2⟩, ⟨3, 5, .e_face, .e_vertex⟩⟩

/-- The upward unit normal. -/
def nUp : Vec2 := ⟨0, 1⟩

/-- The constant-zero distance evaluation (shapes overlapping the whole sweep). -/
def distZero : ℝ → ℝ := fun _ => 0

/-- The distance evaluation 2 - t (head-on approach closing at speed 1). -/
def distApproach : ℝ → ℝ := fun t => 2 - t

/-- The constant closing-speed bound 1. -/
def boundOne : ℝ → ℝ := fun _ => 1

/-! ### Helper lemmas about the folds -/

theorem vec2_add_def (a b : Vec2) : a + b = ⟨a.x + b.x, a.y + b.y⟩ := rfl

theorem vec2_sub_def (a b : Vec2) : a - b = ⟨a.x - b.x, a.y - b.y⟩ := rfl

theorem vec2_neg_def (a : Vec2) : -a = ⟨-a.x, -a.y⟩ := rfl

theorem minFold_spec (l : List ℝ) (x : ℝ) :
    (minFold l x = x ∨ minFold l x ∈ l) ∧ minFold l x ≤ x ∧ ∀ y ∈ l, minFold l x ≤ y := by
  induction l generalizing x with
  | nil => simp [minFold]
  | cons a t ih =>
    have step : minFold (a :: t) x = minFold t (if a < x then a else x) := by
      simp [minFold]
    rw [step]
    obtain ⟨hmem, hacc, hall⟩ := ih (if a < x then a else x)
    refine ⟨?_, ?_, ?_⟩
    · rcases hmem with h | h
      · by_cases ha : a < x
        · right; rw [h, if_pos ha]; exact List.mem_cons_self _ _
        · left; rw [h, if_neg ha]
      · right; exact List.mem_cons_of_mem _ h
    · refine le_trans hacc ?_
      by_cases ha : a < x
      · rw [if_pos ha]; exact le_of_lt ha
      · rw [if_neg ha]
    · intro y hy
      rcases List.mem_cons.mp hy with rfl | hy
      · refine le_trans hacc ?_
        by_cases ha : y < x
        · rw [if_pos ha]
        · rw [if_neg ha]; exact le_of_not_lt ha
      · exact hall y hy

theorem argmaxFold_spec (l : List (ℕ × ℝ)) (acc : ℕ × ℝ) :
    (argmaxFold l acc = acc ∨ argmaxFold l acc ∈ l) ∧
    acc.2 ≤ (argmaxFold l acc).2 ∧ ∀ p ∈ l, p.2 ≤ (argmaxFold l acc).2 := by
  induction l generalizing acc with
  | nil => simp [argmaxFold]
  | cons q t ih =>
    have step : argmaxFold (q :: t) acc = argmaxFold t (if q.2 > acc.2 then q else acc) := by
      simp [argmaxFold]
    rw [step]
    obtain ⟨hmem, hacc, hall⟩ := ih (if q.2 > acc.2 then q else acc)
    refine ⟨?_, ?_, ?_⟩
    · rcases hmem with h | h
      · by_cases hq : q.2 > acc.2
        · right; rw [h, if_pos hq]; exact List.mem_cons_self _ _
        · left; rw [h, if_neg hq]
      · right; exact List.mem_cons_of_mem _ h
    · refine le_trans ?_ hacc
      by_cases hq : q.2 > acc.2
      · rw [if_pos hq]; exact le_of_lt hq
      · rw [if_neg hq]
    · intro p hp
      rcases List.mem_cons.mp hp with rfl | hp
      · refine le_trans ?_ hacc
        by_cases hq : p.2 > acc.2
        · rw [if_pos hq]
        · rw [if_neg hq]; exact le_of_not_lt hq
      · exact hall p hp

theorem argminFold_spec (l : List (ℕ × ℝ)) (acc : ℕ × ℝ) :
    (argminFold l acc = acc ∨ argminFold l acc ∈ l) ∧
    (argminFold l acc).2 ≤ acc.2 ∧ ∀ p ∈ l, (argminFold l acc).2 ≤ p.2 := by
  induction l generalizing acc with
  | nil => simp [argminFold]
  | cons q t ih =>
    have step : argminFold (q :: t) acc = argminFold t (if q.2 < acc.2 then q else acc) := by
      simp [argminFold]
    rw [step]
    obtain ⟨hmem, hacc, hall⟩ := ih (if q.2 < acc.2 then q else acc)
    refine ⟨?_, ?_, ?_⟩
    · rcases hmem with h | h
      · by_cases hq : q.2 < acc.2
        · right; rw [h, if_pos hq]; exact List.mem_cons_self _ _
        · left; rw [h, if_neg hq]
      · right; exact List.mem_cons_of_mem _ h
    · refine le_trans hacc ?_
      by_cases hq : q.2 < acc.2
      · rw [if_pos hq]; exact le_of_lt hq
      · rw [if_neg hq]
    · intro p hp
      rcases List.mem_cons.mp hp with rfl | hp
      · refine le_trans hacc ?_
        by_cases hq : p.2 < acc.2
        · rw [if_pos hq]
        · rw [if_neg hq]; exact le_of_not_lt hq
      · exact hall p hp

theorem enumFrom_mem_iff {α : Type _} (l : List α) (n : ℕ) (d : α) (p : ℕ × α) :
    p ∈ List.enumFrom n l ↔ ∃ k, k < l.length ∧ p = (n + k, l.getD k d) := by
  induction l generalizing n with
  | nil => simp [List.enumFrom]
  | cons a t ih =>
    constructor
    · intro hp
      rcases List.mem_cons.mp hp with rfl | hp
      · exact ⟨0, by simp, by simp⟩
      · obtain ⟨k, hk, rfl⟩ := (ih (n + 1)).mp hp
        refine ⟨k + 1, by simpa using Nat.succ_lt_succ hk, ?_⟩
        simp [List.getD_cons_succ]
        omega
    · rintro ⟨k, hk, rfl⟩
      cases k with
      | zero => simp [List.enumFrom]
      | succ k =>
        refine List.mem_cons_of_mem _ ((ih (n + 1)).mpr ⟨k, by simpa using Nat.lt_of_succ_lt_succ hk, ?_⟩)
        simp [List.getD_cons_succ]
        omega

theorem headD_eq_getD {α : Type _} (l : List α) (d : α) : l.headD d = l.getD 0 d := by
  cases l <;> simp

theorem tail_getD {α : Type _} (l : List α) (k : ℕ) (d : α) :
    l.tail.getD k d = l.getD (k + 1) d := by
  cases l <;> simp [List.getD_cons_succ]

theorem getD_map_of_lt {α : Type _} (f : α → ℝ) (l : List α) (j : ℕ) (hj : j < l.length)
    (d : ℝ) (da : α) : (l.map f).getD j d = f (l.getD j da) := by
  rw [List.getD_eq_getElem _ _ (by simpa using hj), List.getD_eq_getElem _ _ hj,
    List.getElem_map]

theorem getD_range_map (f : ℕ → ℝ) (n i : ℕ) (hi : i < n) (d : ℝ) :
    ((List.range n).map f).getD i d = f i := by
  rw [getD_map_of_lt f _ i (by simpa using hi) d 0, List.getD_eq_getElem _ _ (by simpa using hi),
    List.getElem_range]

/-! ### Characterization of the separation finder -/

theorem faceSeparation_spec (poly1 poly2 : b2PolygonShape) (xf : b2Transform) (i : ℕ)
    (h2 : 1 ≤ poly2.m_count) :
    (∃ j, j < poly2.m_count ∧ faceSeparation poly1 poly2 xf i = projSep poly1 poly2 xf i j) ∧
    ∀ j < poly2.m_count, faceSeparation poly1 poly2 xf i ≤ projSep poly1 poly2 xf i j := by
  have hlen : poly2.m_vertices.length = poly2.m_count := rfl
  set g : Vec2 → ℝ := fun v2 =>
    b2Dot (b2MulRV xf.q (poly1.m_normals.getD i vzero))
      (v2 - b2MulTV xf (poly1.m_vertices.getD i vzero)) with hg
  set sijs : List ℝ := poly2.m_vertices.map g with hsijs
  have hslen : sijs.length = poly2.m_count := by simp [hsijs, hlen]
  have hgetD : ∀ j, j < poly2.m_count → sijs.getD j 0 = projSep poly1 poly2 xf i j := by
    intro j hj
    rw [hsijs, getD_map_of_lt g _ j (by simp [hlen, hj]) 0 vzero]
    rfl
  have hface : faceSeparation poly1 poly2 xf i = minFold sijs.tail (sijs.headD 0) := rfl
  obtain ⟨hmem, hhead, hall⟩ := minFold_spec sijs.tail (sijs.headD 0)
  constructor
  · rcases hmem with h | h
    · refine ⟨0, h2, ?_⟩
      rw [hface, h, headD_eq_getD, hgetD 0 h2]
    · obtain ⟨⟨k, hk⟩, hkeq⟩ := List.mem_iff_get.mp h
      have hklt : k + 1 < poly2.m_count := by
        have := hk
        simp [hslen] at this
        omega
      refine ⟨k + 1, hklt, ?_⟩
      have hget : sijs.tail.get ⟨k, hk⟩ = sijs.tail.getD k 0 := by
        rw [List.getD_eq_getElem sijs.tail 0 hk, List.get_eq_getElem]
      rw [hface, ← hkeq, hget, tail_getD, hgetD _ hklt]
  · intro j hj
    rw [hface]
    cases j with
    | zero =>
      calc minFold sijs.tail (sijs.headD 0) ≤ sijs.headD 0 := hhead
        _ = projSep poly1 poly2 xf i 0 := by rw [headD_eq_getD, hgetD 0 hj]
    | succ k =>
      have hk : k < sijs.tail.length := by
        simp [hslen]
        omega
      have : sijs.tail.getD k 0 ∈ sijs.tail := by
        rw [List.getD_eq_getElem sijs.tail 0 hk]
        exact List.getElem_mem _
      calc minFold sijs.tail (sijs.headD 0) ≤ sijs.tail.getD k 0 := hall _ this
        _ = projSep poly1 poly2 xf i (k + 1) := by rw [tail_getD, hgetD _ hj]

theorem findMaxSeparation_spec (poly1 : b2PolygonShape) (xf1 : b2Transform)
    (poly2 : b2PolygonShape) (xf2 : b2Transform) (h1 : 1 ≤ poly1.m_count) :
    (b2FindMaxSeparation poly1 xf1 poly2 xf2).1 < poly1.m_count ∧
    faceSeparation poly1 poly2 (b2MulTTT xf2 xf1) (b2FindMaxSeparation poly1 xf1 poly2 xf2).1
      = (b2FindMaxSeparation poly1 xf1 poly2 xf2).2 ∧
    ∀ i < poly1.m_count,
      faceSeparation poly1 poly2 (b2MulTTT xf2 xf1) i
        ≤ (b2FindMaxSeparation poly1 xf1 poly2 xf2).2 := by
  set f : ℕ → ℝ := faceSeparation poly1 poly2 (b2MulTTT xf2 xf1) with hf
  set seps : List ℝ := (List.range poly1.m_count).map f with hseps
  have hslen : seps.length = poly1.m_count := by simp [hseps]
  have hgetD : ∀ i, i < poly1.m_count → seps.getD i 0 = f i := fun i hi =>
    getD_range_map f _ i hi 0
  have hrw : b2FindMaxSeparation poly1 xf1 poly2 xf2
      = argmaxFold (List.enumFrom 1 seps.tail) (0, seps.headD 0) := rfl
  obtain ⟨hmem, hhead, hall⟩ := argmaxFold_spec (List.enumFrom 1 seps.tail) (0, seps.headD 0)
  have hbound : ∀ i < poly1.m_count,
      f i ≤ (argmaxFold (List.enumFrom 1 seps.tail) (0, seps.headD 0)).2 := by
    intro i hi
    cases i with
    | zero =>
      calc f 0 = seps.headD 0 := by rw [headD_eq_getD, hgetD 0 hi]
        _ ≤ _ := hhead
    | succ k =>
      have hk : k < seps.tail.length := by
        simp [hslen]
        omega
      have hmem2 : (1 + k, seps.tail.getD k 0) ∈ List.enumFrom 1 seps.tail :=
        (enumFrom_mem_iff seps.tail 1 0 _).mpr ⟨k, hk, rfl⟩
      have := hall _ hmem2
      calc f (k + 1) = seps.tail.getD k 0 := by rw [tail_getD, hgetD _ hi]
        _ ≤ _ := this
  rw [hrw]
  rcases hmem with h | h
  · rw [h]
    refine ⟨h1, ?_, ?_⟩
    · show f 0 = seps.headD 0
      rw [headD_eq_getD, hgetD 0 h1]
    · intro i hi
      have := hbound i hi
      rwa [h] at this
  · obtain ⟨k, hk, heq⟩ := (enumFrom_mem_iff seps.tail 1 0 _).mp h
    have hklt : 1 + k < poly1.m_count := by
      have := hk
      simp [hslen] at this
      omega
    refine ⟨?_, ?_, ?_⟩
    · rw [heq]
      exact hklt
    · rw [heq]
      show f (1 + k) = seps.tail.getD k 0
      have h1k : 1 + k = k + 1 := by omega
      rw [h1k, tail_getD, hgetD _ (by omega)]
    · exact hbound

theorem incidentIndex_spec (normal1 : Vec2) (poly2 : b2PolygonShape)
    (h2 : 1 ≤ poly2.m_count) :
    incidentIndex normal1 poly2 < poly2.m_count ∧
    ∀ i < poly2.m_count,
      b2Dot normal1 (poly2.m_normals.getD (incidentIndex normal1 poly2) vzero)
        ≤ b2Dot normal1 (poly2.m_normals.getD i vzero) := by
  set f : ℕ → ℝ := fun i => b2Dot normal1 (poly2.m_normals.getD i vzero) with hf
  set dots : List ℝ := (List.range poly2.m_count).map f with hdots
  have hdlen : dots.length = poly2.m_count := by simp [hdots]
  have hgetD : ∀ i, i < poly2.m_count → dots.getD i 0 = f i := fun i hi =>
    getD_range_map f _ i hi 0
  have hrw : incidentIndex normal1 poly2
      = (argminFold (List.enumFrom 1 dots.tail) (0, dots.headD 0)).1 := rfl
  obtain ⟨hmem, hhead, hall⟩ := argminFold_spec (List.enumFrom 1 dots.tail) (0, dots.headD 0)
  set r := argminFold (List.enumFrom 1 dots.tail) (0, dots.headD 0) with hr
  have hval : r.1 < poly2.m_count ∧ f r.1 = r.2 := by
    rcases hmem with h | h
    · rw [h]
      exact ⟨h2, by rw [headD_eq_getD, hgetD 0 h2]⟩
    · obtain ⟨k, hk, heq⟩ := (enumFrom_mem_iff dots.tail 1 0 _).mp h
      have hklt : 1 + k < poly2.m_count := by
        have := hk
        simp [hdlen] at this
        omega
      rw [heq]
      refine ⟨hklt, ?_⟩
      show f (1 + k) = dots.tail.getD k 0
      have h1k : 1 + k = k + 1 := by omega
      rw [h1k, tail_getD, hgetD _ (by omega)]
  have hbound : ∀ i < poly2.m_count, r.2 ≤ f i := by
    intro i hi
    cases i with
    | zero =>
      calc r.2 ≤ dots.headD 0 := hhead
        _ = f 0 := by rw [headD_eq_getD, hgetD 0 hi]
    | succ k =>
      have hk : k < dots.tail.length := by
        simp [hdlen]
        omega
      have hmem2 : (1 + k, dots.tail.getD k 0) ∈ List.enumFrom 1 dots.tail :=
        (enumFrom_mem_iff dots.tail 1 0 _).mpr ⟨k, hk, rfl⟩
      calc r.2 ≤ dots.tail.getD k 0 := hall _ hmem2
        _ = f (k + 1) := by rw [tail_getD, hgetD _ hi]
  constructor
  · rw [hrw]
    exact hval.1
  · intro i hi
    show f (incidentIndex normal1 poly2) ≤ f i
    rw [hrw, hval.2]
    exact hbound i hi

/-! ### Claim theorems -/

/-- Claim C2: for a reference polygon with at least one face and another
polygon with at least one vertex, `b2FindMaxSeparation` returns the pair
(edgeIndex, separation) where the separation equals the maximum over the
reference faces of the minimum over the other polygon's vertices of the signed
projection (in the other polygon's frame, via `xf = b2MulT(xf2, xf1)`), and
the edge index is a face attaining that maximum. -/
theorem b2FindMaxSeparation_is_max_min (poly1 : b2PolygonShape) (xf1 : b2Transform)
    (poly2 : b2PolygonShape) (xf2 : b2Transform)
    (h1 : 1 ≤ poly1.m_count) (h2 : 1 ≤ poly2.m_count) :
    (b2FindMaxSeparation poly1 xf1 poly2 xf2).1 < poly1.m_count ∧
    (b2FindMaxSeparation poly1 xf1 poly2 xf2).2
      = (Finset.range poly1.m_count).sup' ⟨0, Finset.mem_range.mpr h1⟩ (fun i =>
          (Finset.range poly2.m_count).inf' ⟨0, Finset.mem_range.mpr h2⟩ (fun j =>
            projSep poly1 poly2 (b2MulTTT xf2 xf1) i j)) ∧
    (Finset.range poly2.m_count).inf' ⟨0, Finset.mem_range.mpr h2⟩ (fun j =>
        projSep poly1 poly2 (b2MulTTT xf2 xf1) (b2FindMaxSeparation poly1 xf1 poly2 xf2).1 j)
      = (b2FindMaxSeparation poly1 xf1 poly2 xf2).2 := by
  set xf := b2MulTTT xf2 xf1 with hxf
  have hface : ∀ i, faceSeparation poly1 poly2 xf i
      = (Finset.range poly2.m_count).inf' ⟨0, Finset.mem_range.mpr h2⟩
          (fun j => projSep poly1 poly2 xf i j) := by
    intro i
    obtain ⟨⟨j, hj, hjeq⟩, hble⟩ := faceSeparation_spec poly1 poly2 xf i h2
    refine le_antisymm ?_ ?_
    · exact Finset.le_inf' _ _ (fun b hb => hble b (Finset.mem_range.mp hb))
    · calc (Finset.range poly2.m_count).inf' _ _
          ≤ projSep poly1 poly2 xf i j := Finset.inf'_le _ (Finset.mem_range.mpr hj)
        _ = faceSeparation poly1 poly2 xf i := hjeq.symm
  obtain ⟨helt, heeq, hbnd⟩ := findMaxSeparation_spec poly1 xf1 poly2 xf2 h1
  refine ⟨helt, le_antisymm ?_ ?_, ?_⟩
  · calc (b2FindMaxSeparation poly1 xf1 poly2 xf2).2
        = faceSeparation poly1 poly2 xf (b2FindMaxSeparation poly1 xf1 poly2 xf2).1 :=
          heeq.symm
      _ = (Finset.range poly2.m_count).inf' ⟨0, Finset.mem_range.mpr h2⟩
            (fun j => projSep poly1 poly2 xf (b2FindMaxSeparation poly1 xf1 poly2 xf2).1 j) :=
          hface _
      _ ≤ _ := Finset.le_sup'
          (fun i => (Finset.range poly2.m_count).inf' ⟨0, Finset.mem_range.mpr h2⟩
            (fun j => projSep poly1 poly2 xf i j))
          (Finset.mem_range.mpr helt)
  · refine Finset.sup'_le _ _ (fun i hi => ?_)
    rw [← hface i]
    exact hbnd i (Finset.mem_range.mp hi)
  · rw [← hface _]
    exact heeq

/-- Witness for C2: the separation finder on two unit squares sharing the edge
x = 1/2 (one translated by (1,0)): both polygon counts are positive and the
returned pair satisfies the max-min characterization. -/
theorem b2FindMaxSeparation_is_max_min_witness :
    (1 ≤ squareA.m_count ∧ 1 ≤ squareA.m_count) ∧
    ((b2FindMaxSeparation squareA xfId squareA xfShift1).1 < squareA.m_count ∧
    (b2FindMaxSeparation squareA xfId squareA xfShift1).2
      = (Finset.range squareA.m_count).sup'
          ⟨0, Finset.mem_range.mpr (by norm_num [squareA, b2PolygonShape.m_count])⟩ (fun i =>
          (Finset.range squareA.m_count).inf'
            ⟨0, Finset.mem_range.mpr (by norm_num [squareA, b2PolygonShape.m_count])⟩ (fun j =>
            projSep squareA squareA (b2MulTTT xfShift1 xfId) i j)) ∧
    (Finset.range squareA.m_count).inf'
        ⟨0, Finset.mem_range.mpr (by norm_num [squareA, b2PolygonShape.m_count])⟩ (fun j =>
        projSep squareA squareA (b2MulTTT xfShift1 xfId)
          (b2FindMaxSeparation squareA xfId squareA xfShift1).1 j)
      = (b2FindMaxSeparation squareA xfId squareA xfShift1).2) := by
  have h1 : 1 ≤ squareA.m_count := by norm_num [squareA, b2PolygonShape.m_count]
  exact ⟨⟨h1, h1⟩, b2FindMaxSeparation_is_max_min squareA xfId squareA xfShift1 h1 h1⟩

theorem collideSetup_poly1_cases (polyA : b2PolygonShape) (xfA : b2Transform)
    (polyB : b2PolygonShape) (xfB : b2Transform) :
    ((collideSetup polyA xfA polyB xfB).poly1 = polyA ∧
      (collideSetup polyA xfA polyB xfB).edge1 = (b2FindMaxSeparation polyA xfA polyB xfB).1) ∨
    ((collideSetup polyA xfA polyB xfB).poly1 = polyB ∧
      (collideSetup polyA xfA polyB xfB).edge1 = (b2FindMaxSeparation polyB xfB polyA xfA).1) := by
  by_cases h : (b2FindMaxSeparation polyB xfB polyA xfA).2
      > (b2FindMaxSeparation polyA xfA polyB xfB).2 + k_tol
  · right
    simp [collideSetup, h]
  · left
    simp [collideSetup, h]

/-- Claim C10: with at least one vertex on each polygon, `b2FindMaxSeparation`
returns an edge index inside `[0, count)`; consequently the reference edge
passed to `b2FindIncidentEdge` by `b2CollidePolygons` satisfies the assertion
`0 <= edge1 and edge1 < poly1 count`, and both the reference edge index and
its wrap-around successor index the reference polygon's arrays in bounds. -/
theorem findMaxSeparation_edge_in_bounds (polyA : b2PolygonShape) (xfA : b2Transform)
    (polyB : b2PolygonShape) (xfB : b2Transform) (tr : ℝ)
    (hA : 1 ≤ polyA.m_count) (hB : 1 ≤ polyB.m_count) :
    (b2FindMaxSeparation polyA xfA polyB xfB).1 < polyA.m_count ∧
    (collideSetup polyA xfA polyB xfB).edge1 < (collideSetup polyA xfA polyB xfB).poly1.m_count ∧
    (refFace (collideSetup polyA xfA polyB xfB) tr).iv1
      < (collideSetup polyA xfA polyB xfB).poly1.m_count ∧
    (refFace (collideSetup polyA xfA polyB xfB) tr).iv2
      < (collideSetup polyA xfA polyB xfB).poly1.m_count := by
  have hedge : (collideSetup polyA xfA polyB xfB).edge1
      < (collideSetup polyA xfA polyB xfB).poly1.m_count := by
    rcases collideSetup_poly1_cases polyA xfA polyB xfB with ⟨hp, he⟩ | ⟨hp, he⟩
    · rw [hp, he]
      exact (findMaxSeparation_spec polyA xfA polyB xfB hA).1
    · rw [hp, he]
      exact (findMaxSeparation_spec polyB xfB polyA xfA hB).1
  have hiv1 : (refFace (collideSetup polyA xfA polyB xfB) tr).iv1
      = (collideSetup polyA xfA polyB xfB).edge1 := rfl
  have hiv2 : (refFace (collideSetup polyA xfA polyB xfB) tr).iv2
      = if (collideSetup polyA xfA polyB xfB).edge1 + 1
          < (collideSetup polyA xfA polyB xfB).poly1.m_count then
          (collideSetup polyA xfA polyB xfB).edge1 + 1 else 0 := rfl
  refine ⟨(findMaxSeparation_spec polyA xfA polyB xfB hA).1, hedge, ?_, ?_⟩
  · rw [hiv1]
    exact hedge
  · rw [hiv2]
    split
    · assumption
    · omega

/-- Witness for C10: the two shared-edge unit squares have positive vertex
counts, and all the returned and derived indices are in bounds. -/
theorem findMaxSeparation_edge_in_bounds_witness :
    (1 ≤ squareA.m_count ∧ 1 ≤ squareA.m_count) ∧
    ((b2FindMaxSeparation squareA xfId squareA xfShift1).1 < squareA.m_count ∧
    (collideSetup squareA xfId squareA xfShift1).edge1
      < (collideSetup squareA xfId squareA xfShift1).poly1.m_count ∧
    (refFace (collideSetup squareA xfId squareA xfShift1) 0).iv1
      < (collideSetup squareA xfId squareA xfShift1).poly1.m_count ∧
    (refFace (collideSetup squareA xfId squareA xfShift1) 0).iv2
      < (collideSetup squareA xfId squareA xfShift1).poly1.m_count) := by
  have h1 : 1 ≤ squareA.m_count := by norm_num [squareA, b2PolygonShape.m_count]
  exact ⟨⟨h1, h1⟩, findMaxSeparation_edge_in_bounds squareA xfId squareA xfShift1 0 h1 h1⟩

/-- Claim C4: for every reference edge index, `b2FindIncidentEdge` selects on
the incident polygon the edge whose outward normal has minimum dot product
with the reference face normal expressed in the incident polygon's frame, and
outputs that edge's two endpoints mapped to world space, tagged with
(reference edge, face) on the A side and (incident vertex index, vertex) on
the B side. -/
theorem b2FindIncidentEdge_correct (poly1 : b2PolygonShape) (xf1 : b2Transform) (edge1 : ℕ)
    (poly2 : b2PolygonShape) (xf2 : b2Transform) (h2 : 1 ≤ poly2.m_count) :
    ∃ index, index < poly2.m_count ∧
      (∀ i < poly2.m_count,
        b2Dot (b2MulTRV xf2.q (b2MulRV xf1.q (poly1.m_normals.getD edge1 vzero)))
            (poly2.m_normals.getD index vzero)
          ≤ b2Dot (b2MulTRV xf2.q (b2MulRV xf1.q (poly1.m_normals.getD edge1 vzero)))
            (poly2.m_normals.getD i vzero)) ∧
      (b2FindIncidentEdge poly1 xf1 edge1 poly2 xf2).1
        = ⟨b2MulTV xf2 (poly2.m_vertices.getD index vzero),
           ⟨edge1, index, .e_face, .e_vertex⟩⟩ ∧
      (b2FindIncidentEdge poly1 xf1 edge1 poly2 xf2).2
        = ⟨b2MulTV xf2 (poly2.m_vertices.getD
             (if index + 1 < poly2.m_count then index + 1 else 0) vzero),
           ⟨edge1, if index + 1 < poly2.m_count then index + 1 else 0,
            .e_face, .e_vertex⟩⟩ := by
  refine ⟨incidentIndex (b2MulTRV xf2.q (b2MulRV xf1.q (poly1.m_normals.getD edge1 vzero)))
    poly2, ?_, ?_, rfl, rfl⟩
  · exact (incidentIndex_spec _ poly2 h2).1
  · exact (incidentIndex_spec _ poly2 h2).2

/-- Witness for C4: the incident edge of the right-hand unit square against
the left square's reference edge 1 (the face x = 1/2). -/
theorem b2FindIncidentEdge_correct_witness :
    1 ≤ squareA.m_count ∧
    ∃ index, index < squareA.m_count ∧
      (∀ i < squareA.m_count,
        b2Dot (b2MulTRV xfShift1.q (b2MulRV xfId.q (squareA.m_normals.getD 1 vzero)))
            (squareA.m_normals.getD index vzero)
          ≤ b2Dot (b2MulTRV xfShift1.q (b2MulRV xfId.q (squareA.m_normals.getD 1 vzero)))
            (squareA.m_normals.getD i vzero)) ∧
      (b2FindIncidentEdge squareA xfId 1 squareA xfShift1).1
        = ⟨b2MulTV xfShift1 (squareA.m_vertices.getD index vzero),
           ⟨1, index, .e_face, .e_vertex⟩⟩ ∧
      (b2FindIncidentEdge squareA xfId 1 squareA xfShift1).2
        = ⟨b2MulTV xfShift1 (squareA.m_vertices.getD
             (if index + 1 < squareA.m_count then index + 1 else 0) vzero),
           ⟨1, if index + 1 < squareA.m_count then index + 1 else 0,
            .e_face, .e_vertex⟩⟩ := by
  have h1 : 1 ≤ squareA.m_count := by norm_num [squareA, b2PolygonShape.m_count]
  exact ⟨h1, b2FindIncidentEdge_correct squareA xfId 1 squareA xfShift1 h1⟩

/-- Claim C1: whenever the best separation with A as reference or the best
separation with B as reference exceeds the sum of the two skin radii,
`b2CollidePolygons` reports no contact (`pointCount == 0`). -/
theorem collide_rejects_separated (manifold0 : b2Manifold) (polyA : b2PolygonShape)
    (xfA : b2Transform) (polyB : b2PolygonShape) (xfB : b2Transform)
    (h : (b2FindMaxSeparation polyA xfA polyB xfB).2 > polyA.m_radius + polyB.m_radius ∨
         (b2FindMaxSeparation polyB xfB polyA xfA).2 > polyA.m_radius + polyB.m_radius) :
    (b2CollidePolygons manifold0 polyA xfA polyB xfB).pointCount = 0 := by
  by_cases h1 : (b2FindMaxSeparation polyA xfA polyB xfB).2 > polyA.m_radius + polyB.m_radius
  · simp [b2CollidePolygons, h1, b2Manifold.pointCount]
  · have h2 := h.resolve_left h1
    simp [b2CollidePolygons, h1, h2, b2Manifold.pointCount]

/-- Witness for C1: a vertex at the origin against a vertex at (5,0), both
with zero skin radius: the A-reference separation is 5 > 0, and the manifold
is empty. -/
theorem collide_rejects_separated_witness :
    ((b2FindMaxSeparation pointO xfId pointFar xfId).2 > pointO.m_radius + pointFar.m_radius ∨
     (b2FindMaxSeparation pointFar xfId pointO xfId).2 > pointO.m_radius + pointFar.m_radius) ∧
    (b2CollidePolygons mIn pointO xfId pointFar xfId).pointCount = 0 := by
  have h : (b2FindMaxSeparation pointO xfId pointFar xfId).2
      > pointO.m_radius + pointFar.m_radius := by
    norm_num [b2FindMaxSeparation, faceSeparation, minFold, argmaxFold, b2MulTTT, b2MulTRR,
      b2MulTRV, b2MulRV, b2MulTV, b2Dot, vec2_sub_def, vec2_add_def, pointO, pointFar, xfId,
      vzero, b2PolygonShape.m_count, List.range_succ, List.enumFrom]
  exact ⟨Or.inl h, collide_rejects_separated mIn pointO xfId pointFar xfId (Or.inl h)⟩

/-- Claim C6: if clipping the incident edge against the first side plane, or
clipping that result against the second side plane, yields fewer than two
points, `b2CollidePolygons` returns a manifold with `pointCount == 0` (the
value-level no-contact signal). -/
theorem collide_empty_of_clip_short (manifold0 : b2Manifold) (polyA : b2PolygonShape)
    (xfA : b2Transform) (polyB : b2PolygonShape) (xfB : b2Transform)
    (h : (collideClip1 polyA xfA polyB xfB).length < 2 ∨
         (collideClip2 polyA xfA polyB xfB).length < 2) :
    (b2CollidePolygons manifold0 polyA xfA polyB xfB).pointCount = 0 := by
  by_cases h1 : (b2FindMaxSeparation polyA xfA polyB xfB).2 > polyA.m_radius + polyB.m_radius
  · simp [b2CollidePolygons, h1, b2Manifold.pointCount]
  by_cases h2 : (b2FindMaxSeparation polyB xfB polyA xfA).2 > polyA.m_radius + polyB.m_radius
  · simp [b2CollidePolygons, h1, h2, b2Manifold.pointCount]
  by_cases h3 : (collideClip1 polyA xfA polyB xfB).length < 2
  · simp [b2CollidePolygons, h1, h2, h3, b2Manifold.pointCount]
  have h4 : (collideClip2 polyA xfA polyB xfB).length < 2 := h.resolve_left h3
  simp [b2CollidePolygons, h1, h2, h3, h4, b2Manifold.pointCount]

/-- Witness for C6: the vertical segment (reference face pointing along +x,
side planes spanning y in [0,1]) against a lone vertex at (0,-5): both face
separations are 0, but the incident edge lies entirely below the first side
plane, so the first clip returns no points and the manifold is empty. -/
theorem collide_empty_of_clip_short_witness :
    ((collideClip1 segV xfId pointLow xfId).length < 2 ∨
     (collideClip2 segV xfId pointLow xfId).length < 2) ∧
    (b2CollidePolygons mIn segV xfId pointLow xfId).pointCount = 0 := by
  have h : (collideClip1 segV xfId pointLow xfId).length < 2 := by
    norm_num [collideClip1, collideSetup, refFace, b2FindIncidentEdge, incidentIndex,
      b2ClipSegmentToLine, b2FindMaxSeparation, faceSeparation, minFold, argmaxFold, argminFold,
      b2MulTTT, b2MulTRR, b2MulTRV, b2MulRV, b2MulTV, b2Dot, b2CrossVS, Vec2.normalize, Vec2.smul,
      Vec2.neg, vec2_sub_def, vec2_add_def, vec2_neg_def, segV, pointLow, xfId, vzero,
      b2PolygonShape.m_count, List.range_succ, List.enumFrom, k_tol, b2_linearSlop, Real.sqrt_one]
  exact ⟨Or.inl h, collide_empty_of_clip_short mIn segV xfId pointLow xfId (Or.inl h)⟩

theorem b2Dot_lerp (n a b : Vec2) (t : ℝ) :
    b2Dot n (a + Vec2.smul t (b - a)) = b2Dot n a + t * (b2Dot n b - b2Dot n a) := by
  simp only [b2Dot, vec2_add_def, vec2_sub_def, Vec2.smul]
  ring

/-- Claim C5: for every two-point input segment, the clipper keeps both points
unchanged (same order, same tags) when both signed distances are at most 0;
when exactly one distance is positive it returns the surviving original point
together with a point on the half-plane boundary, lying on the input segment,
tagged as synthesized from `vertexIndexA`; when both distances are positive it
returns nothing; and the returned count is always at most 2 (hence in
 0, 1 or 2). -/
theorem b2ClipSegmentToLine_correct (vIn : b2ClipVertex × b2ClipVertex) (normal : Vec2)
    (offset : ℝ) (tag : ℕ) :
    (b2Dot normal vIn.1.v - offset ≤ 0 → b2Dot normal vIn.2.v - offset ≤ 0 →
      b2ClipSegmentToLine vIn normal offset tag = [vIn.1, vIn.2]) ∧
    (b2Dot normal vIn.1.v - offset ≤ 0 → 0 < b2Dot normal vIn.2.v - offset →
      ∃ b : b2ClipVertex,
        b2ClipSegmentToLine vIn normal offset tag = [vIn.1, b] ∧
        b.id = ⟨tag, vIn.1.id.indexB, .e_vertex, .e_face⟩ ∧
        b2Dot normal b.v = offset ∧
        ∃ t, 0 ≤ t ∧ t ≤ 1 ∧ b.v = vIn.1.v + Vec2.smul t (vIn.2.v - vIn.1.v)) ∧
    (0 < b2Dot normal vIn.1.v - offset → b2Dot normal vIn.2.v - offset ≤ 0 →
      ∃ b : b2ClipVertex,
        b2ClipSegmentToLine vIn normal offset tag = [vIn.2, b] ∧
        b.id = ⟨tag, vIn.1.id.indexB, .e_vertex, .e_face⟩ ∧
        b2Dot normal b.v = offset ∧
        ∃ t, 0 ≤ t ∧ t ≤ 1 ∧ b.v = vIn.1.v + Vec2.smul t (vIn.2.v - vIn.1.v)) ∧
    (0 < b2Dot normal vIn.1.v - offset → 0 < b2Dot normal vIn.2.v - offset →
      b2ClipSegmentToLine vIn normal offset tag = []) ∧
    (b2ClipSegmentToLine vIn normal offset tag).length ≤ 2 := by
  refine ⟨?_, ?_, ?_, ?_, ?_⟩
  · intro h0 h1
    simp [b2ClipSegmentToLine, h0, h1]
  · intro h0 h1
    have h1n : ¬ b2Dot normal vIn.2.v - offset ≤ 0 := not_le.mpr h1
    refine ⟨⟨vIn.1.v + Vec2.smul ((b2Dot normal vIn.1.v - offset) /
        (b2Dot normal vIn.1.v - offset - (b2Dot normal vIn.2.v - offset)))
        (vIn.2.v - vIn.1.v), ⟨tag, vIn.1.id.indexB, .e_vertex, .e_face⟩⟩, ?_, rfl, ?_, ?_⟩
    · simp [b2ClipSegmentToLine, h0, h1n]
    · have heq : b2Dot normal vIn.1.v - offset - (b2Dot normal vIn.2.v - offset)
          = b2Dot normal vIn.1.v - b2Dot normal vIn.2.v := by ring
      have hAB : b2Dot normal vIn.1.v - b2Dot normal vIn.2.v ≠ 0 := by
        intro hc
        have : b2Dot normal vIn.1.v = b2Dot normal vIn.2.v := by linarith
        linarith
      rw [b2Dot_lerp, heq]
      field_simp
      ring
    · refine ⟨_, ?_, ?_, rfl⟩
      · rw [div_nonneg_iff]
        right
        constructor <;> linarith
      · rw [div_le_one_iff]
        right
        right
        constructor <;> linarith
  · intro h0 h1
    have h0n : ¬ b2Dot normal vIn.1.v - offset ≤ 0 := not_le.mpr h0
    refine ⟨⟨vIn.1.v + Vec2.smul ((b2Dot normal vIn.1.v - offset) /
        (b2Dot normal vIn.1.v - offset - (b2Dot normal vIn.2.v - offset)))
        (vIn.2.v - vIn.1.v), ⟨tag, vIn.1.id.indexB, .e_vertex, .e_face⟩⟩, ?_, rfl, ?_, ?_⟩
    · simp [b2ClipSegmentToLine, h0n, h1]
    · have heq : b2Dot normal vIn.1.v - offset - (b2Dot normal vIn.2.v - offset)
          = b2Dot normal vIn.1.v - b2Dot normal vIn.2.v := by ring
      have hAB : b2Dot normal vIn.1.v - b2Dot normal vIn.2.v ≠ 0 := by
        intro hc
        have : b2Dot normal vIn.1.v = b2Dot normal vIn.2.v := by linarith
        linarith
      rw [b2Dot_lerp, heq]
      field_simp
      ring
    · refine ⟨_, ?_, ?_, rfl⟩
      · apply div_nonneg <;> linarith
      · rw [div_le_one_iff]
        left
        constructor <;> linarith
  · intro h0 h1
    have h0n : ¬ b2Dot normal vIn.1.v - offset ≤ 0 := not_le.mpr h0
    have h1n : ¬ b2Dot normal vIn.2.v - offset ≤ 0 := not_le.mpr h1
    simp [b2ClipSegmentToLine, h0n, h1n]
  · unfold b2ClipSegmentToLine
    dsimp only
    split_ifs <;> simp

/-- Witness for C5: clipping the segment from (0,0) to (0,2) against the
half-plane y at most 1 keeps the inside endpoint and synthesizes the boundary
point; the hypotheses of the one-outside case hold concretely. -/
theorem b2ClipSegmentToLine_correct_witness :
    b2Dot nUp cvA.v - 1 ≤ 0 ∧ 0 < b2Dot nUp cvB.v - 1 ∧
    (∃ b : b2ClipVertex,
      b2ClipSegmentToLine (cvA, cvB) nUp 1 7 = [cvA, b] ∧
      b.id = ⟨7, cvA.id.indexB, .e_vertex, .e_face⟩ ∧
      b2Dot nUp b.v = 1 ∧
      ∃ t, 0 ≤ t ∧ t ≤ 1 ∧ b.v = cvA.v + Vec2.smul t (cvB.v - cvA.v)) := by
  have h0 : b2Dot nUp cvA.v - 1 ≤ 0 := by norm_num [b2Dot, nUp, cvA]
  have h1 : 0 < b2Dot nUp cvB.v - 1 := by norm_num [b2Dot, nUp, cvB]
  exact ⟨h0, h1, (b2ClipSegmentToLine_correct (cvA, cvB) nUp 1 7).2.1 h0 h1⟩

theorem clip_length_le_two (vIn : b2ClipVertex × b2ClipVertex) (normal : Vec2)
    (offset : ℝ) (tag : ℕ) :
    (b2ClipSegmentToLine vIn normal offset tag).length ≤ 2 := by
  unfold b2ClipSegmentToLine
  dsimp only
  split_ifs <;> simp

theorem filterMap_ite_eq_filter_map {α β : Type _} (p : α → Prop) [DecidablePred p]
    (g : α → β) (l : List α) :
    l.filterMap (fun a => if p a then some (g a) else none)
      = (l.filter (fun a => decide (p a))).map g := by
  induction l with
  | nil => simp
  | cons a t ih => by_cases h : p a <;> simp [h, ih]

/-- Claim C7: the manifold emitted by `b2CollidePolygons` always has
`pointCount` at most 2 (so in 0, 1 or 2); and on the successful-clip path a
manifold point is emitted for a clipped point exactly when its penetration
depth (signed distance along the reference normal minus the face offset) is at
most the total skin radius: the live points are precisely the kept clipped
points, in order, mapped to the incident local frame. -/
theorem collide_points_filtered (manifold0 : b2Manifold) (polyA : b2PolygonShape)
    (xfA : b2Transform) (polyB : b2PolygonShape) (xfB : b2Transform) :
    (b2CollidePolygons manifold0 polyA xfA polyB xfB).pointCount ≤ 2 ∧
    (¬ (b2FindMaxSeparation polyA xfA polyB xfB).2 > polyA.m_radius + polyB.m_radius →
     ¬ (b2FindMaxSeparation polyB xfB polyA xfA).2 > polyA.m_radius + polyB.m_radius →
     ¬ (collideClip1 polyA xfA polyB xfB).length < 2 →
     ¬ (collideClip2 polyA xfA polyB xfB).length < 2 →
      (b2CollidePolygons manifold0 polyA xfA polyB xfB).points
        = ((collideClip2 polyA xfA polyB xfB).filter (fun cp =>
            decide (b2Dot (refFace (collideSetup polyA xfA polyB xfB)
                  (polyA.m_radius + polyB.m_radius)).normal cp.v
                - (refFace (collideSetup polyA xfA polyB xfB)
                    (polyA.m_radius + polyB.m_radius)).frontOffset
              ≤ polyA.m_radius + polyB.m_radius))).map (fun cp =>
            ⟨b2MulTTV (collideSetup polyA xfA polyB xfB).xf2 cp.v,
             if (collideSetup polyA xfA polyB xfB).flip then swapFeatures cp.id
             else cp.id⟩)) := by
  constructor
  · by_cases h1 : (b2FindMaxSeparation polyA xfA polyB xfB).2 > polyA.m_radius + polyB.m_radius
    · simp [b2CollidePolygons, h1, b2Manifold.pointCount]
    by_cases h2 : (b2FindMaxSeparation polyB xfB polyA xfA).2 > polyA.m_radius + polyB.m_radius
    · simp [b2CollidePolygons, h1, h2, b2Manifold.pointCount]
    by_cases h3 : (collideClip1 polyA xfA polyB xfB).length < 2
    · simp [b2CollidePolygons, h1, h2, h3, b2Manifold.pointCount]
    by_cases h4 : (collideClip2 polyA xfA polyB xfB).length < 2
    · simp [b2CollidePolygons, h1, h2, h3, h4, b2Manifold.pointCount]
    · have hlen : (collideClip2 polyA xfA polyB xfB).length ≤ 2 :=
        clip_length_le_two _ _ _ _
      simp only [b2CollidePolygons, h1, h2, h3, h4, b2Manifold.pointCount,
        if_false, if_neg, ite_false]
      calc ((collideClip2 polyA xfA polyB xfB).filterMap _).length
          ≤ (collideClip2 polyA xfA polyB xfB).length := List.length_filterMap_le _ _
        _ ≤ 2 := hlen
  · intro h1 h2 h3 h4
    simp only [b2CollidePolygons, h1, h2, h3, h4, if_false, ite_false]
    exact filterMap_ite_eq_filter_map _ _ _

/-- Witness for C7: the two unit squares sharing the edge x = 1/2 pass every
guard, the point count is at most 2, and the live points are the kept clipped
points. -/
theorem collide_points_filtered_witness :
    (¬ (b2FindMaxSeparation squareA xfId squareA xfShift1).2
        > squareA.m_radius + squareA.m_radius) ∧
    (¬ (b2FindMaxSeparation squareA xfShift1 squareA xfId).2
        > squareA.m_radius + squareA.m_radius) ∧
    (¬ (collideClip1 squareA xfId squareA xfShift1).length < 2) ∧
    (¬ (collideClip2 squareA xfId squareA xfShift1).length < 2) ∧
    (b2CollidePolygons mIn squareA xfId squareA xfShift1).pointCount ≤ 2 ∧
    (b2CollidePolygons mIn squareA xfId squareA xfShift1).points
      = ((collideClip2 squareA xfId squareA xfShift1).filter (fun cp =>
          decide (b2Dot (refFace (collideSetup squareA xfId squareA xfShift1)
                (squareA.m_radius + squareA.m_radius)).normal cp.v
              - (refFace (collideSetup squareA xfId squareA xfShift1)
                  (squareA.m_radius + squareA.m_radius)).frontOffset
            ≤ squareA.m_radius + squareA.m_radius))).map (fun cp =>
          ⟨b2MulTTV (collideSetup squareA xfId squareA xfShift1).xf2 cp.v,
           if (collideSetup squareA xfId squareA xfShift1).flip then swapFeatures cp.id
           else cp.id⟩) := by
  have h1 : ¬ (b2FindMaxSeparation squareA xfId squareA xfShift1).2
      > squareA.m_radius + squareA.m_radius := by
    norm_num [b2FindMaxSeparation, faceSeparation, minFold, argmaxFold, b2MulTTT, b2MulTRR,
      b2MulTRV, b2MulRV, b2MulTV, b2Dot, vec2_sub_def, vec2_add_def, squareA, xfShift1, xfId,
      vzero, b2PolygonShape.m_count, List.range_succ, List.enumFrom]
  have h2 : ¬ (b2FindMaxSeparation squareA xfShift1 squareA xfId).2
      > squareA.m_radius + squareA.m_radius := by
    norm_num [b2FindMaxSeparation, faceSeparation, minFold, argmaxFold, b2MulTTT, b2MulTRR,
      b2MulTRV, b2MulRV, b2MulTV, b2Dot, vec2_sub_def, vec2_add_def, squareA, xfShift1, xfId,
      vzero, b2PolygonShape.m_count, List.range_succ, List.enumFrom]
  have h3 : ¬ (collideClip1 squareA xfId squareA xfShift1).length < 2 := by
    norm_num [collideClip1, collideSetup, refFace, b2FindIncidentEdge, incidentIndex,
      b2ClipSegmentToLine, b2FindMaxSeparation, faceSeparation, minFold, argmaxFold, argminFold,
      b2MulTTT, b2MulTRR, b2MulTRV, b2MulRV, b2MulTV, b2Dot, b2CrossVS, Vec2.normalize, Vec2.smul,
      Vec2.neg, vec2_sub_def, vec2_add_def, vec2_neg_def, squareA, xfShift1, xfId, vzero,
      b2PolygonShape.m_count, List.range_succ, List.enumFrom, k_tol, b2_linearSlop, Real.sqrt_one]
  have h4 : ¬ (collideClip2 squareA xfId squareA xfShift1).length < 2 := by
    norm_num [collideClip2, collideClip1, collideSetup, refFace, b2FindIncidentEdge, incidentIndex,
      b2ClipSegmentToLine, b2FindMaxSeparation, faceSeparation, minFold, argmaxFold, argminFold,
      b2MulTTT, b2MulTRR, b2MulTRV, b2MulRV, b2MulTV, b2Dot, b2CrossVS, Vec2.normalize, Vec2.smul,
      Vec2.neg, vec2_sub_def, vec2_add_def, vec2_neg_def, squareA, xfShift1, xfId, vzero,
      b2PolygonShape.m_count, List.range_succ, List.enumFrom, k_tol, b2_linearSlop, Real.sqrt_one]
  obtain ⟨hc, hp⟩ := collide_points_filtered mIn squareA xfId squareA xfShift1
  exact ⟨h1, h2, h3, h4, hc, hp h1 h2 h3 h4⟩

/-- Claim C8: on the successful-clip path, when B was chosen as reference
(flip set) every emitted manifold point stores its contact feature with the
per-shape components swapped relative to the tags carried by the clipped
points, and when A is the reference the tags are stored unswapped, so stored
ids always follow the (shapeA-tag, shapeB-tag) convention. -/
theorem collide_flip_swaps_features (manifold0 : b2Manifold) (polyA : b2PolygonShape)
    (xfA : b2Transform) (polyB : b2PolygonShape) (xfB : b2Transform)
    (h1 : ¬ (b2FindMaxSeparation polyA xfA polyB xfB).2 > polyA.m_radius + polyB.m_radius)
    (h2 : ¬ (b2FindMaxSeparation polyB xfB polyA xfA).2 > polyA.m_radius + polyB.m_radius)
    (h3 : ¬ (collideClip1 polyA xfA polyB xfB).length < 2)
    (h4 : ¬ (collideClip2 polyA xfA polyB xfB).length < 2) :
    ((collideSetup polyA xfA polyB xfB).flip = true →
      (b2CollidePolygons manifold0 polyA xfA polyB xfB).points.map (fun p => p.id)
        = ((collideClip2 polyA xfA polyB xfB).filter (fun cp =>
            decide (b2Dot (refFace (collideSetup polyA xfA polyB xfB)
                  (polyA.m_radius + polyB.m_radius)).normal cp.v
                - (refFace (collideSetup polyA xfA polyB xfB)
                    (polyA.m_radius + polyB.m_radius)).frontOffset
              ≤ polyA.m_radius + polyB.m_radius))).map (fun cp => swapFeatures cp.id)) ∧
    ((collideSetup polyA xfA polyB xfB).flip = false →
      (b2CollidePolygons manifold0 polyA xfA polyB xfB).points.map (fun p => p.id)
        = ((collideClip2 polyA xfA polyB xfB).filter (fun cp =>
            decide (b2Dot (refFace (collideSetup polyA xfA polyB xfB)
                  (polyA.m_radius + polyB.m_radius)).normal cp.v
                - (refFace (collideSetup polyA xfA polyB xfB)
                    (polyA.m_radius + polyB.m_radius)).frontOffset
              ≤ polyA.m_radius + polyB.m_radius))).map (fun cp => cp.id)) := by
  have hpts : (b2CollidePolygons manifold0 polyA xfA polyB xfB).points
      = ((collideClip2 polyA xfA polyB xfB).filter (fun cp =>
          decide (b2Dot (refFace (collideSetup polyA xfA polyB xfB)
                (polyA.m_radius + polyB.m_radius)).normal cp.v
              - (refFace (collideSetup polyA xfA polyB xfB)
                  (polyA.m_radius + polyB.m_radius)).frontOffset
            ≤ polyA.m_radius + polyB.m_radius))).map (fun cp =>
          (⟨b2MulTTV (collideSetup polyA xfA polyB xfB).xf2 cp.v,
            if (collideSetup polyA xfA polyB xfB).flip then swapFeatures cp.id
            else cp.id⟩ : b2ManifoldPoint)) := by
    simp only [b2CollidePolygons, h1, h2, h3, h4, if_false, ite_false]
    exact filterMap_ite_eq_filter_map _ _ _
  constructor <;> intro hflip <;> rw [hpts, List.map_map] <;>
    simp [hflip, Function.comp_def]

/-- Witness for C8: the vertical segment against the horizontal segment placed
at height 0.3 across it; B's separation (-0.3) beats A's (-0.5) by more than
the tolerance, so B is the reference (flip set) and the single kept point's
stored id is the swap of the clipped point's id. -/
theorem collide_flip_swaps_features_witness :
    (¬ (b2FindMaxSeparation segV xfId segH xfh3).2 > segV.m_radius + segH.m_radius) ∧
    (¬ (b2FindMaxSeparation segH xfh3 segV xfId).2 > segV.m_radius + segH.m_radius) ∧
    (¬ (collideClip1 segV xfId segH xfh3).length < 2) ∧
    (¬ (collideClip2 segV xfId segH xfh3).length < 2) ∧
    (collideSetup segV xfId segH xfh3).flip = true ∧
    (b2CollidePolygons mIn segV xfId segH xfh3).points.map (fun p => p.id)
      = ((collideClip2 segV xfId segH xfh3).filter (fun cp =>
          decide (b2Dot (refFace (collideSetup segV xfId segH xfh3)
                (segV.m_radius + segH.m_radius)).normal cp.v
              - (refFace (collideSetup segV xfId segH xfh3)
                  (segV.m_radius + segH.m_radius)).frontOffset
            ≤ segV.m_radius + segH.m_radius))).map (fun cp => swapFeatures cp.id) := by
  have h1 : ¬ (b2FindMaxSeparation segV xfId segH xfh3).2 > segV.m_radius + segH.m_radius := by
    norm_num [b2FindMaxSeparation, faceSeparation, minFold, argmaxFold, b2MulTTT, b2MulTRR,
      b2MulTRV, b2MulRV, b2MulTV, b2Dot, vec2_sub_def, vec2_add_def, segV, segH, xfh3, xfId,
      vzero, b2PolygonShape.m_count, List.range_succ, List.enumFrom]
  have h2 : ¬ (b2FindMaxSeparation segH xfh3 segV xfId).2 > segV.m_radius + segH.m_radius := by
    norm_num [b2FindMaxSeparation, faceSeparation, minFold, argmaxFold, b2MulTTT, b2MulTRR,
      b2MulTRV, b2MulRV, b2MulTV, b2Dot, vec2_sub_def, vec2_add_def, segV, segH, xfh3, xfId,
      vzero, b2PolygonShape.m_count, List.range_succ, List.enumFrom]
  have h3 : ¬ (collideClip1 segV xfId segH xfh3).length < 2 := by
    norm_num [collideClip1, collideSetup, refFace, b2FindIncidentEdge, incidentIndex,
      b2ClipSegmentToLine, b2FindMaxSeparation, faceSeparation, minFold, argmaxFold, argminFold,
      b2MulTTT, b2MulTRR, b2MulTRV, b2MulRV, b2MulTV, b2Dot, b2CrossVS, Vec2.normalize, Vec2.smul,
      Vec2.neg, vec2_sub_def, vec2_add_def, vec2_neg_def, segV, segH, xfh3, xfId, vzero,
      b2PolygonShape.m_count, List.range_succ, List.enumFrom, k_tol, b2_linearSlop, Real.sqrt_one]
  have h4 : ¬ (collideClip2 segV xfId segH xfh3).length < 2 := by
    norm_num [collideClip2, collideClip1, collideSetup, refFace, b2FindIncidentEdge, incidentIndex,
      b2ClipSegmentToLine, b2FindMaxSeparation, faceSeparation, minFold, argmaxFold, argminFold,
      b2MulTTT, b2MulTRR, b2MulTRV, b2MulRV, b2MulTV, b2Dot, b2CrossVS, Vec2.normalize, Vec2.smul,
      Vec2.neg, vec2_sub_def, vec2_add_def, vec2_neg_def, segV, segH, xfh3, xfId, vzero,
      b2PolygonShape.m_count, List.range_succ, List.enumFrom, k_tol, b2_linearSlop, Real.sqrt_one]
  have hflip : (collideSetup segV xfId segH xfh3).flip = true := by
    norm_num [collideSetup, b2FindMaxSeparation, faceSeparation, minFold, argmaxFold,
      b2MulTTT, b2MulTRR, b2MulTRV, b2MulRV, b2MulTV, b2Dot, vec2_sub_def, vec2_add_def,
      segV, segH, xfh3, xfId, vzero, b2PolygonShape.m_count, List.range_succ, List.enumFrom,
      k_tol, b2_linearSlop]
  exact ⟨h1, h2, h3, h4, hflip,
    (collide_flip_swaps_features mIn segV xfId segH xfh3 h1 h2 h3 h4).1 hflip⟩

/-- Counterexample to claim C3 as stated: both configurations (the horizontal
segment placed at height 0.4993 and at height 0.4996 across the vertical
segment) pass the separation rejection, the transform perturbation changes the
A-reference separation not at all and the B-reference separation by 0.0003,
less than the tolerance 0.1 * b2_linearSlop = 0.0005, yet the first
configuration chooses B as reference (flip set) and the second chooses A: a
sub-tolerance perturbation does flip which shape is the reference. -/
theorem collide_tiebreak_counterexample :
    (¬ (b2FindMaxSeparation segV xfId segH xfh1).2 > segV.m_radius + segH.m_radius) ∧
    (¬ (b2FindMaxSeparation segH xfh1 segV xfId).2 > segV.m_radius + segH.m_radius) ∧
    (¬ (b2FindMaxSeparation segV xfId segH xfh2).2 > segV.m_radius + segH.m_radius) ∧
    (¬ (b2FindMaxSeparation segH xfh2 segV xfId).2 > segV.m_radius + segH.m_radius) ∧
    |(b2FindMaxSeparation segV xfId segH xfh2).2
      - (b2FindMaxSeparation segV xfId segH xfh1).2| < 0.1 * b2_linearSlop ∧
    |(b2FindMaxSeparation segH xfh2 segV xfId).2
      - (b2FindMaxSeparation segH xfh1 segV xfId).2| < 0.1 * b2_linearSlop ∧
    (collideSetup segV xfId segH xfh1).flip = true ∧
    (collideSetup segV xfId segH xfh2).flip = false := by
  refine ⟨?_, ?_, ?_, ?_, ?_, ?_, ?_, ?_⟩ <;>
    norm_num [collideSetup, b2FindMaxSeparation, faceSeparation, minFold, argmaxFold,
      b2MulTTT, b2MulTRR, b2MulTRV, b2MulRV, b2MulTV, b2Dot, vec2_sub_def, vec2_add_def,
      segV, segH, xfh1, xfh2, xfId, vzero, b2PolygonShape.m_count, List.range_succ,
      List.enumFrom, k_tol, b2_linearSlop, abs_lt]

/-- Claim C3, amended: after neither separation exceeds the total skin radius,
B is chosen as reference (manifold type face-of-B, flip set) if and only if
sepB exceeds sepA by more than 0.1 * b2_linearSlop, and in every other case A
is the reference; moreover a perturbation changing the two separations by at
most the tolerance in total cannot newly make B the reference when previously
sepB was at most sepA.  (The original claim's symmetric stability statement —
that no sub-tolerance perturbation can flip which shape is the reference — is
refuted by `collide_tiebreak_counterexample`: a B-reference state with margin
just above the tolerance reverts to A under an arbitrarily small
perturbation.) -/
theorem collide_tiebreak_amended (manifold0 : b2Manifold) (polyA : b2PolygonShape)
    (xfA : b2Transform) (polyB : b2PolygonShape) (xfB : b2Transform)
    (h1 : ¬ (b2FindMaxSeparation polyA xfA polyB xfB).2 > polyA.m_radius + polyB.m_radius)
    (h2 : ¬ (b2FindMaxSeparation polyB xfB polyA xfA).2 > polyA.m_radius + polyB.m_radius) :
    (((b2CollidePolygons manifold0 polyA xfA polyB xfB).type = .e_faceB ∧
      (collideSetup polyA xfA polyB xfB).flip = true) ↔
      (b2FindMaxSeparation polyB xfB polyA xfA).2
        > (b2FindMaxSeparation polyA xfA polyB xfB).2 + 0.1 * b2_linearSlop) ∧
    (¬ ((b2FindMaxSeparation polyB xfB polyA xfA).2
        > (b2FindMaxSeparation polyA xfA polyB xfB).2 + 0.1 * b2_linearSlop) →
      (b2CollidePolygons manifold0 polyA xfA polyB xfB).type = .e_faceA ∧
      (collideSetup polyA xfA polyB xfB).flip = false) ∧
    (∀ (polyA2 : b2PolygonShape) (xfA2 : b2Transform)
        (polyB2 : b2PolygonShape) (xfB2 : b2Transform),
      (b2FindMaxSeparation polyB xfB polyA xfA).2
          ≤ (b2FindMaxSeparation polyA xfA polyB xfB).2 →
      |(b2FindMaxSeparation polyA2 xfA2 polyB2 xfB2).2
          - (b2FindMaxSeparation polyA xfA polyB xfB).2|
        + |(b2FindMaxSeparation polyB2 xfB2 polyA2 xfA2).2
          - (b2FindMaxSeparation polyB xfB polyA xfA).2|
        ≤ 0.1 * b2_linearSlop →
      (collideSetup polyA2 xfA2 polyB2 xfB2).flip = false) := by
  have hktol : k_tol = 0.1 * b2_linearSlop := rfl
  have htype : (b2CollidePolygons manifold0 polyA xfA polyB xfB).type
      = (collideSetup polyA xfA polyB xfB).mtype := by
    by_cases h3 : (collideClip1 polyA xfA polyB xfB).length < 2
    · simp [b2CollidePolygons, h1, h2, h3]
    by_cases h4 : (collideClip2 polyA xfA polyB xfB).length < 2
    · simp [b2CollidePolygons, h1, h2, h3, h4]
    · simp [b2CollidePolygons, h1, h2, h3, h4]
  refine ⟨?_, ?_, ?_⟩
  · constructor
    · rintro ⟨hty, hfl⟩
      by_cases hc : (b2FindMaxSeparation polyB xfB polyA xfA).2
          > (b2FindMaxSeparation polyA xfA polyB xfB).2 + 0.1 * b2_linearSlop
      · exact hc
      · rw [← hktol] at hc
        simp [collideSetup, hc] at hfl
    · intro hc
      rw [← hktol] at hc
      constructor
      · rw [htype]
        simp [collideSetup, hc]
      · simp [collideSetup, hc]
  · intro hc
    rw [← hktol] at hc
    constructor
    · rw [htype]
      simp [collideSetup, hc]
    · simp [collideSetup, hc]
  · intro polyA2 xfA2 polyB2 xfB2 hle hpert
    have hb := le_abs_self ((b2FindMaxSeparation polyB2 xfB2 polyA2 xfA2).2
      - (b2FindMaxSeparation polyB xfB polyA xfA).2)
    have ha := neg_abs_le ((b2FindMaxSeparation polyA2 xfA2 polyB2 xfB2).2
      - (b2FindMaxSeparation polyA xfA polyB xfB).2)
    have hnc : ¬ (b2FindMaxSeparation polyB2 xfB2 polyA2 xfA2).2
        > (b2FindMaxSeparation polyA2 xfA2 polyB2 xfB2).2 + k_tol := by
      rw [hktol]
      push_neg
      linarith
    simp [collideSetup, hnc]

/-- Witness for the amended C3: the shared-edge unit squares pass both
rejections, A is the reference there (the tie-break condition fails since both
separations are 0), and the zero perturbation (the same pair again) keeps A as
the reference. -/
theorem collide_tiebreak_amended_witness :
    (¬ (b2FindMaxSeparation squareA xfId squareA xfShift1).2
        > squareA.m_radius + squareA.m_radius) ∧
    (¬ (b2FindMaxSeparation squareA xfShift1 squareA xfId).2
        > squareA.m_radius + squareA.m_radius) ∧
    (((b2CollidePolygons mIn squareA xfId squareA xfShift1).type = .e_faceB ∧
      (collideSetup squareA xfId squareA xfShift1).flip = true) ↔
      (b2FindMaxSeparation squareA xfShift1 squareA xfId).2
        > (b2FindMaxSeparation squareA xfId squareA xfShift1).2 + 0.1 * b2_linearSlop) ∧
    (¬ ((b2FindMaxSeparation squareA xfShift1 squareA xfId).2
        > (b2FindMaxSeparation squareA xfId squareA xfShift1).2 + 0.1 * b2_linearSlop)) ∧
    ((b2CollidePolygons mIn squareA xfId squareA xfShift1).type = .e_faceA ∧
      (collideSetup squareA xfId squareA xfShift1).flip = false) ∧
    ((b2FindMaxSeparation squareA xfShift1 squareA xfId).2
        ≤ (b2FindMaxSeparation squareA xfId squareA xfShift1).2) ∧
    (|(b2FindMaxSeparation squareA xfId squareA xfShift1).2
        - (b2FindMaxSeparation squareA xfId squareA xfShift1).2|
      + |(b2FindMaxSeparation squareA xfShift1 squareA xfId).2
        - (b2FindMaxSeparation squareA xfShift1 squareA xfId).2|
      ≤ 0.1 * b2_linearSlop) ∧
    (collideSetup squareA xfId squareA xfShift1).flip = false := by
  have hsepA : (b2FindMaxSeparation squareA xfId squareA xfShift1).2 = 0 := by
    norm_num [b2FindMaxSeparation, faceSeparation, minFold, argmaxFold, b2MulTTT, b2MulTRR,
      b2MulTRV, b2MulRV, b2MulTV, b2Dot, vec2_sub_def, vec2_add_def, squareA, xfShift1, xfId,
      vzero, b2PolygonShape.m_count, List.range_succ, List.enumFrom]
  have hsepB : (b2FindMaxSeparation squareA xfShift1 squareA xfId).2 = 0 := by
    norm_num [b2FindMaxSeparation, faceSeparation, minFold, argmaxFold, b2MulTTT, b2MulTRR,
      b2MulTRV, b2MulRV, b2MulTV, b2Dot, vec2_sub_def, vec2_add_def, squareA, xfShift1, xfId,
      vzero, b2PolygonShape.m_count, List.range_succ, List.enumFrom]
  have h1 : ¬ (b2FindMaxSeparation squareA xfId squareA xfShift1).2
      > squareA.m_radius + squareA.m_radius := by
    rw [hsepA]
    norm_num [squareA]
  have h2 : ¬ (b2FindMaxSeparation squareA xfShift1 squareA xfId).2
      > squareA.m_radius + squareA.m_radius := by
    rw [hsepB]
    norm_num [squareA]
  have hnc : ¬ ((b2FindMaxSeparation squareA xfShift1 squareA xfId).2
      > (b2FindMaxSeparation squareA xfId squareA xfShift1).2 + 0.1 * b2_linearSlop) := by
    rw [hsepA, hsepB]
    norm_num [b2_linearSlop]
  have hle : (b2FindMaxSeparation squareA xfShift1 squareA xfId).2
      ≤ (b2FindMaxSeparation squareA xfId squareA xfShift1).2 := by
    rw [hsepA, hsepB]
  have habs : |(b2FindMaxSeparation squareA xfId squareA xfShift1).2
        - (b2FindMaxSeparation squareA xfId squareA xfShift1).2|
      + |(b2FindMaxSeparation squareA xfShift1 squareA xfId).2
        - (b2FindMaxSeparation squareA xfShift1 squareA xfId).2|
      ≤ 0.1 * b2_linearSlop := by
    simp [sub_self, abs_zero]
    norm_num [b2_linearSlop]
  obtain ⟨hiff, himp, hstab⟩ := collide_tiebreak_amended mIn squareA xfId squareA xfShift1 h1 h2
  exact ⟨h1, h2, hiff, hnc, himp hnc, hle, habs,
    hstab squareA xfId squareA xfShift1 hle habs⟩

theorem toiLoop_succ (distance bound : ℝ → ℝ) (tolerance tMax : ℝ) (n : ℕ) (t : ℝ) :
    toiLoop distance bound tolerance tMax (n + 1) t =
      if distance t ≤ tolerance then
        (if t = 0 then ⟨.e_overlapped, t⟩ else ⟨.e_touching, t⟩)
      else if tMax ≤ t then ⟨.e_separated, tMax⟩
      else if bound t ≤ 0 then ⟨.e_failed, t⟩
      else toiLoop distance bound tolerance tMax n
        (min (t + (distance t - tolerance) / bound t) tMax) := rfl

theorem toiLoop_invariant (distance bound : ℝ → ℝ) (tolerance tMax : ℝ)
    (htMax : 0 ≤ tMax) :
    ∀ (n : ℕ) (t : ℝ), 0 ≤ t → t ≤ tMax →
      ((toiLoop distance bound tolerance tMax n t).state = .e_failed ∨
       (toiLoop distance bound tolerance tMax n t).state = .e_overlapped ∨
       (toiLoop distance bound tolerance tMax n t).state = .e_touching ∨
       (toiLoop distance bound tolerance tMax n t).state = .e_separated) ∧
      0 ≤ (toiLoop distance bound tolerance tMax n t).t ∧
      (toiLoop distance bound tolerance tMax n t).t ≤ tMax := by
  intro n
  induction n with
  | zero =>
    intro t h0 h1
    exact ⟨Or.inl rfl, h0, h1⟩
  | succ n ih =>
    intro t h0 h1
    rw [toiLoop_succ]
    by_cases hd : distance t ≤ tolerance
    · rw [if_pos hd]
      by_cases ht : t = 0
      · rw [if_pos ht]
        exact ⟨Or.inr (Or.inl rfl), h0, h1⟩
      · rw [if_neg ht]
        exact ⟨Or.inr (Or.inr (Or.inl rfl)), h0, h1⟩
    · rw [if_neg hd]
      by_cases htm : tMax ≤ t
      · rw [if_pos htm]
        exact ⟨Or.inr (Or.inr (Or.inr rfl)), htMax, le_refl tMax⟩
      · rw [if_neg htm]
        by_cases hb : bound t ≤ 0
        · rw [if_pos hb]
          exact ⟨Or.inl rfl, h0, h1⟩
        · rw [if_neg hb]
          apply ih
          · have hstep : 0 ≤ (distance t - tolerance) / bound t := by
              apply div_nonneg <;> linarith
            exact le_min (by linarith) htMax
          · exact min_le_right _ _

/-- Claim C9: for every input the time-of-impact driver returns an output
whose state is one of failed, overlapped, touching or separated — the unknown
state never escapes — with a time fraction in [0, tMax].  The output is a
value owned by the caller: the embedding is a pure function, so the returned
output is immutable and no further state transition can occur. -/
theorem cb2TimeOfImpact_terminal (distance bound : ℝ → ℝ) (tolerance tMax : ℝ)
    (iterCap : ℕ) (htMax : 0 ≤ tMax) :
    ((cb2TimeOfImpact distance bound tolerance tMax iterCap).state = .e_failed ∨
     (cb2TimeOfImpact distance bound tolerance tMax iterCap).state = .e_overlapped ∨
     (cb2TimeOfImpact distance bound tolerance tMax iterCap).state = .e_touching ∨
     (cb2TimeOfImpact distance bound tolerance tMax iterCap).state = .e_separated) ∧
    (cb2TimeOfImpact distance bound tolerance tMax iterCap).state ≠ .e_unknown ∧
    0 ≤ (cb2TimeOfImpact distance bound tolerance tMax iterCap).t ∧
    (cb2TimeOfImpact distance bound tolerance tMax iterCap).t ≤ tMax := by
  have h := toiLoop_invariant distance bound tolerance tMax htMax iterCap 0 le_rfl htMax
  refine ⟨h.1, ?_, h.2.1, h.2.2⟩
  rcases h.1 with hs | hs | hs | hs <;> rw [show cb2TimeOfImpact distance bound tolerance
    tMax iterCap = toiLoop distance bound tolerance tMax iterCap 0 from rfl, hs] <;> simp

/-- Witness for C9: the constant-zero distance with unit speed bound, zero
tolerance and tMax = 1: the interval is well formed and the driver's output is
terminal with its time inside [0, 1]. -/
theorem cb2TimeOfImpact_terminal_witness :
    (0 : ℝ) ≤ 1 ∧
    (((cb2TimeOfImpact distZero boundOne 0 1 1).state = .e_failed ∨
      (cb2TimeOfImpact distZero boundOne 0 1 1).state = .e_overlapped ∨
      (cb2TimeOfImpact distZero boundOne 0 1 1).state = .e_touching ∨
      (cb2TimeOfImpact distZero boundOne 0 1 1).state = .e_separated) ∧
     (cb2TimeOfImpact distZero boundOne 0 1 1).state ≠ .e_unknown ∧
     0 ≤ (cb2TimeOfImpact distZero boundOne 0 1 1).t ∧
     (cb2TimeOfImpact distZero boundOne 0 1 1).t ≤ 1) :=
  ⟨by norm_num, cb2TimeOfImpact_terminal distZero boundOne 0 1 1 (by norm_num)⟩

end CinderBox2D
